import Mathlib

/-!
Shallow embedding of the razorpay-server routes.

The repository holds near-duplicate Express route files:
* `src/api/index.js` (the "V1" handlers below), and
* the second variant inside `src/unnamed/part_000` (the "V2" handlers),
  which additionally validates the amount, stores a `paymentId`
  (the settlement reference) and caps the history at 20 records.

External collaborators are modelled as parameters:
* the Razorpay gateway call `razorpay.qrCode.create` is an `Option QrCode`
  argument (`none` = the call threw, caught by the route's `catch`);
* node's `crypto` HMAC-SHA256 hex digest is a function argument
  `hmacHex : String → String → String` (secret, raw body → hex digest);
* MongoDB is a `Store` (list of documents in insertion order);
  `Order.findOne` is `List.find?`, `Order.create` appends, and
  `Order.findOneAndUpdate` updates the first matching document.

JavaScript property access on `undefined` throws a `TypeError`; the webhook
handlers therefore return `Except JsError _`, raising `.typeError` exactly
where the source would throw while reading `payload.qr_code.entity.id`.
-/

/-- Result of the external `razorpay.qrCode.create` call. -/
structure QrCode where
  id : String
  image_url : String
deriving DecidableEq, Repr

/-- One MongoDB `Order` document (schema of `src/unnamed/part_000`, second
variant; `src/api/index.js` never sets `paymentId`, leaving it at the
schema default `null` = `none`). `amount` is `Option` because index.js
stores whatever the request carried, including a missing field. -/
structure Session where
  qrId : String
  amount : Option Int
  status : String
  paymentId : Option String
  createdAt : Nat
deriving DecidableEq, Repr

/-- The MongoDB collection, in insertion (natural) order. -/
abbrev Store := List Session

/-- JSON bodies the routes can answer with. -/
inductive RespBody where
  | createdOk (id image_url : String)
  | serverError
  | invalidAmount
  | statusOf (status : String) (paymentId : Option String)
  | notFound
  | ok
  | invalidSignature
deriving DecidableEq, Repr

/-- An HTTP response: status code and JSON body. -/
structure Resp where
  code : Nat
  body : RespBody
deriving DecidableEq, Repr

/-- A thrown JavaScript error that no route handler catches. -/
inductive JsError where
  | typeError
deriving DecidableEq, Repr

/-- `payload.*.entity` object; `id` may be absent (`undefined`). -/
structure EntityObj where
  id : Option String
deriving DecidableEq, Repr

/-- `payload.qr_code` / `payload.payment` wrapper; `entity` may be absent. -/
structure EntityWrap where
  entity : Option EntityObj
deriving DecidableEq, Repr

/-- The webhook body's `payload` field. -/
structure Payload where
  qr_code : Option EntityWrap
  payment : Option EntityWrap
deriving DecidableEq, Repr

/-- A parsed webhook request body (`req.body`). -/
structure WebhookBody where
  event : Option String
  payload : Option Payload
deriving DecidableEq, Repr

/-- POST /api/create-payment of `src/api/index.js`: no amount validation;
the amount is forwarded to the gateway and stored as-is. `gw` is the
outcome of `razorpay.qrCode.create` (`none` = it threw → 500). -/
def createPaymentV1 (amount : Option Int) (gw : Option QrCode) (now : Nat)
    (store : Store) : Resp × Store :=
  match gw with
  | none => (⟨500, .serverError⟩, store)
  | some qr =>
      (⟨200, .createdOk qr.id qr.image_url⟩,
       store ++ [{ qrId := qr.id, amount := amount, status := "PENDING",
                   paymentId := none, createdAt := now }])

/-- POST /api/create-payment of `src/unnamed/part_000` (second variant):
`if (!amount || amount < 1) return res.status(400)...` runs before the
gateway call, then the PENDING order is persisted. -/
def createPaymentV2 (amount : Option Int) (gw : Option QrCode) (now : Nat)
    (store : Store) : Resp × Store :=
  match amount with
  | none => (⟨400, .invalidAmount⟩, store)
  | some a =>
      if a < 1 then (⟨400, .invalidAmount⟩, store)
      else
        match gw with
        | none => (⟨500, .serverError⟩, store)
        | some qr =>
            (⟨200, .createdOk qr.id qr.image_url⟩,
             store ++ [{ qrId := qr.id, amount := some a, status := "PENDING",
                         paymentId := none, createdAt := now }])

/-- GET /api/check-status/:id — `Order.findOne({qrId})`; 404 NOT_FOUND when
no document matches, otherwise 200 with the stored status (and, in the
part_000 variant, the stored `paymentId`). A pure read. -/
def checkStatus (id : String) (store : Store) : Resp :=
  match store.find? (fun o => o.qrId = id) with
  | none => ⟨404, .notFound⟩
  | some o => ⟨200, .statusOf o.status o.paymentId⟩

/-- The sort key of `Order.find().sort({ createdAt: -1 })`: newest first. -/
def laterFirst (a b : Session) : Prop := b.createdAt ≤ a.createdAt

instance : DecidableRel laterFirst := fun _ _ => Nat.decLe _ _

instance : IsTotal Session laterFirst :=
  ⟨fun a b => Nat.le_total b.createdAt a.createdAt⟩

instance : IsTrans Session laterFirst :=
  ⟨fun _ _ _ h1 h2 => Nat.le_trans h2 h1⟩

/-- GET /api/orders of `src/api/index.js`: every order, newest first,
no limit. -/
def getOrdersV1 (store : Store) : List Session :=
  store.insertionSort laterFirst

/-- GET /api/orders of `src/unnamed/part_000` (second variant):
`Order.find().sort({ createdAt: -1 }).limit(20)`. -/
def getOrdersV2 (store : Store) : List Session :=
  (store.insertionSort laterFirst).take 20

/-- The update half of `findOneAndUpdate(_, { status: "SUCCESS",
paymentId })`. Mongoose strips `undefined` values from an update, so a
missing payment id leaves the stored field untouched; index.js's update
object has no `paymentId` key at all, which is the same `none` case. -/
def applyUpd (o : Session) (pid : Option String) : Session :=
  { o with status := "SUCCESS",
           paymentId := match pid with | some p => some p | none => o.paymentId }

/-- `Order.findOneAndUpdate({ qrId: qid }, { status: "SUCCESS", paymentId: pid })`.
Mongoose strips `undefined` from the query as well, so `qid = none` is the
empty filter `{}` and matches the first document; otherwise the first
document with the given `qrId` is updated. No match is a silent no-op. -/
def findOneAndUpdate (qid pid : Option String) : Store → Store
  | [] => []
  | o :: rest =>
      match qid with
      | none => applyUpd o pid :: rest
      | some q =>
          if o.qrId = q then applyUpd o pid :: rest
          else o :: findOneAndUpdate (some q) pid rest

/-- POST /api/webhook of `src/api/index.js`. Verifies the HMAC-SHA256 hex
digest of the raw body against the `x-razorpay-signature` header (absent
header = `none`, never equal to a digest). On a verified
`qr_code.credited` event it reads `payload.qr_code.entity.id` — throwing a
TypeError when `payload`, `qr_code` or `entity` is `undefined` — and marks
the matching order SUCCESS. Any other verified event is acknowledged
untouched; a bad signature gets 400 `invalid_signature`. -/
def webhookV1 (hmacHex : String → String → String) (secret : String)
    (signature : Option String) (rawBody : String) (body : WebhookBody)
    (store : Store) : Except JsError (Resp × Store) :=
  if signature = some (hmacHex secret rawBody) then
    if body.event = some "qr_code.credited" then
      match body.payload with
      | none => .error .typeError
      | some payload =>
          match payload.qr_code with
          | none => .error .typeError
          | some qrw =>
              match qrw.entity with
              | none => .error .typeError
              | some ent =>
                  .ok (⟨200, .ok⟩, findOneAndUpdate ent.id none store)
    else .ok (⟨200, .ok⟩, store)
  else .ok (⟨400, .invalidSignature⟩, store)

/-- POST /api/webhook of `src/unnamed/part_000` (second variant). Same
signature gate; on a verified `qr_code.credited` event it reads
`payload.qr_code.entity` and `payload.payment.entity` (throwing on an
`undefined` step, in source evaluation order) and updates the matching
order with status SUCCESS and the payment entity's id. -/
def webhookV2 (hmacHex : String → String → String) (secret : String)
    (signature : Option String) (rawBody : String) (body : WebhookBody)
    (store : Store) : Except JsError (Resp × Store) :=
  if signature = some (hmacHex secret rawBody) then
    if body.event = some "qr_code.credited" then
      match body.payload with
      | none => .error .typeError
      | some payload =>
          match payload.qr_code with
          | none => .error .typeError
          | some qrw =>
              match payload.payment with
              | none => .error .typeError
              | some pw =>
                  match qrw.entity with
                  | none => .error .typeError
                  | some qrEntity =>
                      match pw.entity with
                      | none => .error .typeError
                      | some paymentEntity =>
                          .ok (⟨200, .ok⟩,
                               findOneAndUpdate qrEntity.id paymentEntity.id store)
    else .ok (⟨200, .ok⟩, store)
  else .ok (⟨400, .invalidSignature⟩, store)

/-- One inbound request, for the reachability relation over store states. -/
inductive Op where
  | createV1 (amount : Option Int) (gw : Option QrCode) (now : Nat)
  | createV2 (amount : Option Int) (gw : Option QrCode) (now : Nat)
  | check (id : String)
  | orders
  | hookV1 (hmacHex : String → String → String) (secret : String)
      (signature : Option String) (rawBody : String) (body : WebhookBody)
  | hookV2 (hmacHex : String → String → String) (secret : String)
      (signature : Option String) (rawBody : String) (body : WebhookBody)

/-- Store left behind by one request. A webhook that throws never reaches
its `findOneAndUpdate`, so the store is unchanged; reads change nothing. -/
def stepStore (store : Store) : Op → Store
  | .createV1 a g n => (createPaymentV1 a g n store).2
  | .createV2 a g n => (createPaymentV2 a g n store).2
  | .check _ => store
  | .orders => store
  | .hookV1 h s sig raw body =>
      match webhookV1 h s sig raw body store with
      | .ok (_, st) => st
      | .error _ => store
  | .hookV2 h s sig raw body =>
      match webhookV2 h s sig raw body store with
      | .ok (_, st) => st
      | .error _ => store

/-- Stores reachable from the empty collection by any request sequence. -/
inductive Reach : Store → Prop where
  | init : Reach []
  | step : ∀ {st : Store}, Reach st → ∀ op, Reach (stepStore st op)

/-- A status value this system can have written. -/
def okStatus (s : Session) : Prop :=
  s.status = "PENDING" ∨ s.status = "SUCCESS"

/-- How one request may move one stored document: the key is stable and the
status either stays put or moves PENDING → SUCCESS. -/
def statusStep (a b : Session) : Prop :=
  b.qrId = a.qrId ∧
    (b.status = a.status ∨ (a.status = "PENDING" ∧ b.status = "SUCCESS"))

/-- The credited webhook body of the spec's concrete scenario, with
artifact id `q` and payment (settlement) id `p`. -/
def credBody (q p : String) : WebhookBody :=
  ⟨some "qr_code.credited", some ⟨some ⟨some ⟨some q⟩⟩, some ⟨some ⟨some p⟩⟩⟩⟩

/-! ### Lemmas about the store primitives -/

theorem applyUpd_qrId (o : Session) (pid : Option String) :
    (applyUpd o pid).qrId = o.qrId := rfl

theorem applyUpd_status (o : Session) (pid : Option String) :
    (applyUpd o pid).status = "SUCCESS" := rfl

theorem applyUpd_applyUpd (o : Session) (pid : Option String) :
    applyUpd (applyUpd o pid) pid = applyUpd o pid := by
  cases pid <;> rfl

theorem findOneAndUpdate_length (qid pid : Option String) (st : Store) :
    (findOneAndUpdate qid pid st).length = st.length := by
  induction st with
  | nil => rfl
  | cons o rest ih =>
      cases qid with
      | none => rfl
      | some q =>
          by_cases h : o.qrId = q
          · simp [findOneAndUpdate, h]
          · simp [findOneAndUpdate, h, ih]

theorem mem_findOneAndUpdate (qid pid : Option String) (st : Store) (s : Session)
    (h : s ∈ findOneAndUpdate qid pid st) :
    s ∈ st ∨ ∃ t, t ∈ st ∧ s = applyUpd t pid := by
  induction st with
  | nil => simp [findOneAndUpdate] at h
  | cons o rest ih =>
      cases qid with
      | none =>
          rcases List.mem_cons.mp h with h1 | h1
          · exact Or.inr ⟨o, List.mem_cons_self o rest, h1⟩
          · exact Or.inl (List.mem_cons_of_mem _ h1)
      | some q =>
          by_cases hq : o.qrId = q
          · rw [findOneAndUpdate, if_pos hq] at h
            rcases List.mem_cons.mp h with h1 | h1
            · exact Or.inr ⟨o, List.mem_cons_self o rest, h1⟩
            · exact Or.inl (List.mem_cons_of_mem _ h1)
          · rw [findOneAndUpdate, if_neg hq] at h
            rcases List.mem_cons.mp h with h1 | h1
            · exact Or.inl (h1 ▸ List.mem_cons_self o rest)
            · rcases ih h1 with h2 | ⟨t, ht, hts⟩
              · exact Or.inl (List.mem_cons_of_mem _ h2)
              · exact Or.inr ⟨t, List.mem_cons_of_mem _ ht, hts⟩

theorem forall2_statusStep_refl (l : Store) : List.Forall₂ statusStep l l := by
  induction l with
  | nil => exact List.Forall₂.nil
  | cons o rest ih => exact List.Forall₂.cons ⟨rfl, Or.inl rfl⟩ ih

theorem findOneAndUpdate_statusStep (qid pid : Option String) (st : Store)
    (hok : ∀ s ∈ st, okStatus s) :
    List.Forall₂ statusStep st (findOneAndUpdate qid pid st) := by
  induction st with
  | nil => exact List.Forall₂.nil
  | cons o rest ih =>
      have hhead : statusStep o (applyUpd o pid) := by
        refine ⟨applyUpd_qrId o pid, ?_⟩
        rcases hok o (List.mem_cons_self o rest) with h | h
        · exact Or.inr ⟨h, applyUpd_status o pid⟩
        · exact Or.inl (by rw [applyUpd_status, h])
      have htail : ∀ s ∈ rest, okStatus s :=
        fun s hs => hok s (List.mem_cons_of_mem _ hs)
      cases qid with
      | none => exact List.Forall₂.cons hhead (forall2_statusStep_refl rest)
      | some q =>
          by_cases hq : o.qrId = q
          · rw [findOneAndUpdate, if_pos hq]
            exact List.Forall₂.cons hhead (forall2_statusStep_refl rest)
          · rw [findOneAndUpdate, if_neg hq]
            exact List.Forall₂.cons ⟨rfl, Or.inl rfl⟩ (ih htail)

theorem findOneAndUpdate_idem (qid pid : Option String) (st : Store) :
    findOneAndUpdate qid pid (findOneAndUpdate qid pid st)
      = findOneAndUpdate qid pid st := by
  induction st with
  | nil => rfl
  | cons o rest ih =>
      cases qid with
      | none =>
          show applyUpd (applyUpd o pid) pid :: rest = applyUpd o pid :: rest
          rw [applyUpd_applyUpd]
      | some q =>
          by_cases hq : o.qrId = q
          · rw [findOneAndUpdate, if_pos hq, findOneAndUpdate,
              if_pos (applyUpd_qrId o pid ▸ hq), applyUpd_applyUpd]
          · rw [findOneAndUpdate, if_neg hq, findOneAndUpdate, if_neg hq, ih]

theorem findOneAndUpdate_nomatch (q : String) (pid : Option String) (st : Store)
    (h : ∀ s ∈ st, s.qrId ≠ q) :
    findOneAndUpdate (some q) pid st = st := by
  induction st with
  | nil => rfl
  | cons o rest ih =>
      have ho := h o (List.mem_cons_self o rest)
      rw [findOneAndUpdate, if_neg ho,
        ih (fun s hs => h s (List.mem_cons_of_mem _ hs))]

theorem findOneAndUpdate_append (q : String) (pid : Option String)
    (pre post : Store) (s : Session)
    (hpre : ∀ t ∈ pre, t.qrId ≠ q) (hs : s.qrId = q) :
    findOneAndUpdate (some q) pid (pre ++ s :: post)
      = pre ++ applyUpd s pid :: post := by
  induction pre with
  | nil => simp [findOneAndUpdate, hs]
  | cons o rest ih =>
      have ho := hpre o (List.mem_cons_self o rest)
      have := ih (fun t ht => hpre t (List.mem_cons_of_mem _ ht))
      rw [List.cons_append, findOneAndUpdate, if_neg ho]
      exact congrArg (o :: ·) this

theorem find?_qrId_append (id : String) (pre post : Store)
    (h : ∀ t ∈ pre, t.qrId ≠ id) :
    (pre ++ post).find? (fun o => o.qrId = id)
      = post.find? (fun o => o.qrId = id) := by
  induction pre with
  | nil => rfl
  | cons o rest ih =>
      have ho := h o (List.mem_cons_self o rest)
      rw [List.cons_append, List.find?_cons_of_neg _ (by simpa using ho),
        ih (fun t ht => h t (List.mem_cons_of_mem _ ht))]

theorem find?_qrId_eq_none (id : String) (store : Store)
    (h : ∀ s ∈ store, s.qrId ≠ id) :
    store.find? (fun o => o.qrId = id) = none :=
  List.find?_eq_none.mpr (fun x hx => by simpa using h x hx)

/-! ### Lemmas about one request step -/

theorem webhookV1_cases (hm : String → String → String) (sec : String)
    (sig : Option String) (raw : String) (body : WebhookBody) (st : Store) :
    (∃ r, webhookV1 hm sec sig raw body st = .ok (r, st)) ∨
    webhookV1 hm sec sig raw body st = .error .typeError ∨
    (∃ qid r, webhookV1 hm sec sig raw body st
        = .ok (r, findOneAndUpdate qid none st)) := by
  unfold webhookV1
  by_cases h1 : sig = some (hm sec raw)
  · rw [if_pos h1]
    by_cases h2 : body.event = some "qr_code.credited"
    · rw [if_pos h2]
      rcases body.payload with _ | pl
      · exact Or.inr (Or.inl rfl)
      · obtain ⟨qc, pay⟩ := pl
        rcases qc with _ | qw
        · exact Or.inr (Or.inl rfl)
        · obtain ⟨ent⟩ := qw
          rcases ent with _ | e
          · exact Or.inr (Or.inl rfl)
          · exact Or.inr (Or.inr ⟨e.id, ⟨200, .ok⟩, rfl⟩)
    · rw [if_neg h2]
      exact Or.inl ⟨⟨200, .ok⟩, rfl⟩
  · rw [if_neg h1]
    exact Or.inl ⟨⟨400, .invalidSignature⟩, rfl⟩

theorem webhookV2_cases (hm : String → String → String) (sec : String)
    (sig : Option String) (raw : String) (body : WebhookBody) (st : Store) :
    (∃ r, webhookV2 hm sec sig raw body st = .ok (r, st)) ∨
    webhookV2 hm sec sig raw body st = .error .typeError ∨
    (∃ qid pid r, webhookV2 hm sec sig raw body st
        = .ok (r, findOneAndUpdate qid pid st)) := by
  unfold webhookV2
  by_cases h1 : sig = some (hm sec raw)
  · rw [if_pos h1]
    by_cases h2 : body.event = some "qr_code.credited"
    · rw [if_pos h2]
      rcases body.payload with _ | pl
      · exact Or.inr (Or.inl rfl)
      · obtain ⟨qc, pay⟩ := pl
        rcases qc with _ | qw
        · exact Or.inr (Or.inl rfl)
        · rcases pay with _ | pw
          · exact Or.inr (Or.inl rfl)
          · obtain ⟨qent⟩ := qw
            obtain ⟨pent⟩ := pw
            rcases qent with _ | qe
            · exact Or.inr (Or.inl rfl)
            · rcases pent with _ | pe
              · exact Or.inr (Or.inl rfl)
              · exact Or.inr (Or.inr ⟨qe.id, pe.id, ⟨200, .ok⟩, rfl⟩)
    · rw [if_neg h2]
      exact Or.inl ⟨⟨200, .ok⟩, rfl⟩
  · rw [if_neg h1]
    exact Or.inl ⟨⟨400, .invalidSignature⟩, rfl⟩

/-- Every store a request leaves behind is either the old store, the old
store with one freshly appended PENDING document, or a `findOneAndUpdate`
image of the old store. -/
theorem stepStore_shape (st : Store) (op : Op) :
    stepStore st op = st ∨
    (∃ s, s.status = "PENDING" ∧ stepStore st op = st ++ [s]) ∨
    (∃ qid pid, stepStore st op = findOneAndUpdate qid pid st) := by
  cases op with
  | createV1 a g n =>
      rcases g with _ | qr
      · exact Or.inl rfl
      · exact Or.inr (Or.inl ⟨_, rfl, rfl⟩)
  | createV2 a g n =>
      rcases a with _ | a
      · exact Or.inl rfl
      · by_cases ha : a < 1
        · exact Or.inl (by simp [stepStore, createPaymentV2, if_pos ha])
        · rcases g with _ | qr
          · exact Or.inl (by simp [stepStore, createPaymentV2, if_neg ha])
          · refine Or.inr (Or.inl ⟨Session.mk qr.id (some a) "PENDING" none n, rfl, ?_⟩)
            simp [stepStore, createPaymentV2, if_neg ha]
  | check id => exact Or.inl rfl
  | orders => exact Or.inl rfl
  | hookV1 hm sec sig raw body =>
      rcases webhookV1_cases hm sec sig raw body st with ⟨r, h⟩ | h | ⟨qid, r, h⟩
      · exact Or.inl (by simp [stepStore, h])
      · exact Or.inl (by simp [stepStore, h])
      · exact Or.inr (Or.inr ⟨qid, none, by simp [stepStore, h]⟩)
  | hookV2 hm sec sig raw body =>
      rcases webhookV2_cases hm sec sig raw body st with ⟨r, h⟩ | h | ⟨qid, pid, r, h⟩
      · exact Or.inl (by simp [stepStore, h])
      · exact Or.inl (by simp [stepStore, h])
      · exact Or.inr (Or.inr ⟨qid, pid, by simp [stepStore, h]⟩)

theorem stepStore_okStatus (st : Store) (op : Op)
    (hok : ∀ s ∈ st, okStatus s) :
    ∀ s ∈ stepStore st op, okStatus s := by
  rcases stepStore_shape st op with h | ⟨t, ht, h⟩ | ⟨qid, pid, h⟩
  · rw [h]; exact hok
  · rw [h]
    intro s hs
    rcases List.mem_append.mp hs with hsl | hsr
    · exact hok s hsl
    · rw [List.mem_singleton.mp hsr]
      exact Or.inl ht
  · rw [h]
    intro s hs
    rcases mem_findOneAndUpdate qid pid st s hs with hsl | ⟨t, _, rfl⟩
    · exact hok s hsl
    · exact Or.inr (applyUpd_status t pid)

theorem reach_okStatus {st : Store} (h : Reach st) :
    ∀ s ∈ st, okStatus s := by
  induction h with
  | init => intro s hs; simp at hs
  | step _ op ih => exact stepStore_okStatus _ op ih

theorem stepStore_statusStep (st : Store) (op : Op)
    (hok : ∀ s ∈ st, okStatus s) :
    List.Forall₂ statusStep st ((stepStore st op).take st.length) ∧
    ∀ s ∈ (stepStore st op).drop st.length, s.status = "PENDING" := by
  rcases stepStore_shape st op with h | ⟨t, ht, h⟩ | ⟨qid, pid, h⟩
  · rw [h, List.take_length st, List.drop_length st]
    exact ⟨forall2_statusStep_refl st, by simp⟩
  · rw [h, List.take_left st [t], List.drop_left st [t]]
    refine ⟨forall2_statusStep_refl st, ?_⟩
    intro s hs
    rw [List.mem_singleton.mp hs]
    exact ht
  · rw [h,
      List.take_of_length_le (le_of_eq (findOneAndUpdate_length qid pid st)),
      List.drop_eq_nil_of_le (le_of_eq (findOneAndUpdate_length qid pid st))]
    exact ⟨findOneAndUpdate_statusStep qid pid st hok, by simp⟩

/-! ### The webhook happy path -/

theorem webhookV2_credited (hm : String → String → String) (sec raw q p : String)
    (st : Store) :
    webhookV2 hm sec (some (hm sec raw)) raw (credBody q p) st
      = .ok (⟨200, .ok⟩, findOneAndUpdate (some q) (some p) st) := by
  unfold webhookV2 credBody
  rw [if_pos rfl, if_pos rfl]

/-! ### The claims -/

/-- Claim C1: an inbound webhook whose signature header differs from the
hex HMAC-SHA256 of the raw body under the shared secret is answered with
400 `invalid_signature`, the event is not processed, and the store is
returned exactly as it was — in both route variants. -/
theorem C1_invalid_signature_rejected
    (hmacHex : String → String → String) (secret : String)
    (signature : Option String) (rawBody : String) (body : WebhookBody)
    (store : Store) (h : signature ≠ some (hmacHex secret rawBody)) :
    webhookV2 hmacHex secret signature rawBody body store
      = .ok (⟨400, .invalidSignature⟩, store)
    ∧ webhookV1 hmacHex secret signature rawBody body store
      = .ok (⟨400, .invalidSignature⟩, store) := by
  constructor
  · unfold webhookV2
    rw [if_neg h]
  · unfold webhookV1
    rw [if_neg h]

theorem C1_witness :
    webhookV2 (fun _ _ => "aa") "sec" (some "bb") "raw" ⟨none, none⟩ []
      = .ok (⟨400, .invalidSignature⟩, [])
    ∧ webhookV1 (fun _ _ => "aa") "sec" (some "bb") "raw" ⟨none, none⟩ []
      = .ok (⟨400, .invalidSignature⟩, []) :=
  C1_invalid_signature_rejected (fun _ _ => "aa") "sec" (some "bb") "raw"
    ⟨none, none⟩ [] (by decide)

/-- Claim C2: delivering the same verified `qr_code.credited` webhook twice
yields the same final store as delivering it once — the second delivery
changes nothing (status stays SUCCESS, `paymentId` keeps its value) and is
still acknowledged with the 200 `{status:"ok"}` response. -/
theorem C2_applySuccess_idempotent
    (hmacHex : String → String → String) (secret rawBody q p : String)
    (store : Store) :
    ∃ st1,
      webhookV2 hmacHex secret (some (hmacHex secret rawBody)) rawBody
          (credBody q p) store = .ok (⟨200, .ok⟩, st1)
      ∧ webhookV2 hmacHex secret (some (hmacHex secret rawBody)) rawBody
          (credBody q p) st1 = .ok (⟨200, .ok⟩, st1) := by
  refine ⟨findOneAndUpdate (some q) (some p) store,
    webhookV2_credited hmacHex secret rawBody q p store, ?_⟩
  rw [webhookV2_credited, findOneAndUpdate_idem]

/-- Claim C3: a verified `qr_code.credited` webhook for an existing PENDING
session (first match for its artifact id) sets that session's status to
SUCCESS and its settlement reference (`paymentId`) to the payment entity's
id, and `checkStatus` then reports SUCCESS with that payment id. -/
theorem C3_credited_sets_success
    (hmacHex : String → String → String) (secret rawBody q p : String)
    (pre post : Store) (s : Session)
    (hpre : ∀ t ∈ pre, t.qrId ≠ q) (hq : s.qrId = q)
    (_hs : s.status = "PENDING") :
    webhookV2 hmacHex secret (some (hmacHex secret rawBody)) rawBody
        (credBody q p) (pre ++ s :: post)
      = .ok (⟨200, .ok⟩,
          pre ++ { s with status := "SUCCESS", paymentId := some p } :: post)
    ∧ checkStatus q
        (pre ++ { s with status := "SUCCESS", paymentId := some p } :: post)
      = ⟨200, .statusOf "SUCCESS" (some p)⟩ := by
  constructor
  · rw [webhookV2_credited,
      findOneAndUpdate_append q (some p) pre post s hpre hq]
    rfl
  · unfold checkStatus
    rw [find?_qrId_append q pre _ hpre,
      List.find?_cons_of_pos _ (by simp [hq])]

theorem C3_witness :
    webhookV2 (fun _ _ => "d") "sec" (some "d") "raw"
        (credBody "qr_A1" "pay_X9")
        [Session.mk "qr_A1" (some 500) "PENDING" none 0]
      = .ok (⟨200, .ok⟩,
          [Session.mk "qr_A1" (some 500) "SUCCESS" (some "pay_X9") 0])
    ∧ checkStatus "qr_A1"
        [Session.mk "qr_A1" (some 500) "SUCCESS" (some "pay_X9") 0]
      = ⟨200, .statusOf "SUCCESS" (some "pay_X9")⟩ :=
  C3_credited_sets_success (fun _ _ => "d") "sec" "raw" "qr_A1" "pay_X9" [] []
    (Session.mk "qr_A1" (some 500) "PENDING" none 0) (by simp) rfl rfl

/-- Claim C4: every reachable store holds only PENDING or SUCCESS statuses;
any single request maps each already-stored session to one with the same
key whose status is unchanged or moved PENDING → SUCCESS (never out of
SUCCESS), and every session a request appends starts as PENDING. -/
theorem C4_status_monotone (st : Store) (h : Reach st) :
    (∀ s ∈ st, okStatus s) ∧
    ∀ op, List.Forall₂ statusStep st ((stepStore st op).take st.length) ∧
      ∀ s ∈ (stepStore st op).drop st.length, s.status = "PENDING" :=
  ⟨reach_okStatus h, fun op => stepStore_statusStep st op (reach_okStatus h)⟩

theorem C4_witness :
    (∀ s ∈ ([] : Store), okStatus s) ∧
    ∀ op, List.Forall₂ statusStep []
        ((stepStore [] op).take (List.length ([] : Store))) ∧
      ∀ s ∈ (stepStore [] op).drop (List.length ([] : Store)),
        s.status = "PENDING" :=
  C4_status_monotone [] Reach.init

/-- Claim C5: for a positive amount, a create-payment whose gateway call
succeeds with a fresh artifact id persists exactly one new PENDING record
under that id, answers 200, and an immediately following check-status for
that id answers 200 PENDING. -/
theorem C5_create_then_pending (a : Int) (qr : QrCode) (now : Nat)
    (store : Store) (ha : 1 ≤ a) (hfresh : ∀ s ∈ store, s.qrId ≠ qr.id) :
    createPaymentV2 (some a) (some qr) now store
      = (⟨200, .createdOk qr.id qr.image_url⟩,
         store ++ [Session.mk qr.id (some a) "PENDING" none now])
    ∧ checkStatus qr.id
        (store ++ [Session.mk qr.id (some a) "PENDING" none now])
      = ⟨200, .statusOf "PENDING" none⟩ := by
  constructor
  · have hlt : ¬ a < 1 := by omega
    simp only [createPaymentV2, if_neg hlt]
  · unfold checkStatus
    rw [find?_qrId_append qr.id store _ hfresh,
      List.find?_cons_of_pos _ (by simp)]

theorem C5_witness :
    createPaymentV2 (some 500) (some (QrCode.mk "qr_A1" "img")) 0 []
      = (⟨200, .createdOk "qr_A1" "img"⟩,
         [Session.mk "qr_A1" (some 500) "PENDING" none 0])
    ∧ checkStatus "qr_A1" [Session.mk "qr_A1" (some 500) "PENDING" none 0]
      = ⟨200, .statusOf "PENDING" none⟩ :=
  C5_create_then_pending 500 (QrCode.mk "qr_A1" "img") 0 [] (by decide)
    (by simp)

/-- A store of 51 distinct sessions, used to exhibit the unbounded
history response of `src/api/index.js`. -/
def manySessions : Store :=
  (List.range 51).map (fun i => Session.mk (toString i) (some 1) "PENDING" none i)

/-- Claim C6 counterexample: `src/api/index.js` runs
`Order.find().sort({createdAt:-1})` with no limit, so on a store of 51
sessions the orders route returns 51 records — more than any cap in the
claimed 20–50 range. -/
theorem C6_counterexample : 50 < (getOrdersV1 manySessions).length := by
  have h : (getOrdersV1 manySessions).length = 51 := by
    unfold getOrdersV1 manySessions
    rw [List.length_insertionSort, List.length_map, List.length_range]
  omega

/-- Claim C6 (amended): both orders routes return the sessions in
non-increasing `createdAt` order; the part_000 variant additionally caps
the response at 20 records, while `src/api/index.js` is unbounded. -/
theorem C6_amended_orders_sorted_bounded (store : Store) :
    List.Sorted laterFirst (getOrdersV2 store)
    ∧ (getOrdersV2 store).length ≤ 20
    ∧ List.Sorted laterFirst (getOrdersV1 store) := by
  refine ⟨?_, ?_, List.sorted_insertionSort laterFirst store⟩
  · exact List.Pairwise.sublist (List.take_sublist 20 _)
      (List.sorted_insertionSort laterFirst store)
  · exact List.length_take_le 20 _

/-- Claim C7: the spec requires a verified `qr_code.credited` body with
missing nested fields to be ignored, but both handlers dereference
`payload.qr_code.entity` unguarded and throw a TypeError when `payload`
has no `qr_code` — an unhandled crash, not an ignorable event. -/
theorem C7_missing_fields_crash :
    webhookV2 (fun _ _ => "d") "sec" (some "d") "raw"
        (WebhookBody.mk (some "qr_code.credited") (some (Payload.mk none none)))
        [] = .error .typeError
    ∧ webhookV1 (fun _ _ => "d") "sec" (some "d") "raw"
        (WebhookBody.mk (some "qr_code.credited") (some (Payload.mk none none)))
        [] = .error .typeError := by
  constructor <;> rfl

/-- Claim C8 counterexample: `src/api/index.js` does not validate the
amount — a create-payment with amount 0 whose gateway call succeeds is
answered 200 and a session for amount 0 is persisted, instead of the
claimed client-error rejection with no session created. -/
theorem C8_counterexample :
    (createPaymentV1 (some 0) (some (QrCode.mk "qr_A1" "img")) 0 []).1.code
        = 200
    ∧ (createPaymentV1 (some 0) (some (QrCode.mk "qr_A1" "img")) 0 []).2
        = [Session.mk "qr_A1" (some 0) "PENDING" none 0] :=
  ⟨rfl, rfl⟩

/-- Claim C8 (amended): the part_000 create-payment variant rejects a
missing, zero or negative amount with 400 before the gateway is consulted
(the result is the same for every gateway outcome) and leaves the store
unchanged; `src/api/index.js` performs no such boundary validation. -/
theorem C8_amended_validation (amount : Option Int)
    (h : amount = none ∨ ∃ a, amount = some a ∧ a < 1)
    (gw : Option QrCode) (now : Nat) (store : Store) :
    createPaymentV2 amount gw now store = (⟨400, .invalidAmount⟩, store) := by
  rcases h with rfl | ⟨a, rfl, ha⟩
  · rfl
  · simp only [createPaymentV2, if_pos ha]

theorem C8_witness :
    createPaymentV2 (some 0) (some (QrCode.mk "qr_A1" "img")) 0 []
      = (⟨400, .invalidAmount⟩, []) :=
  C8_amended_validation (some 0) (Or.inr ⟨0, rfl, by decide⟩)
    (some (QrCode.mk "qr_A1" "img")) 0 []

/-- Claim C9: a verified `qr_code.credited` webhook whose artifact id
matches no stored session is acknowledged with 200 `{status:"ok"}` while
the store is returned exactly as it was — nothing modified, no session
created for the unknown id. -/
theorem C9_orphan_acknowledged
    (hmacHex : String → String → String) (secret rawBody q p : String)
    (store : Store) (h : ∀ s ∈ store, s.qrId ≠ q) :
    webhookV2 hmacHex secret (some (hmacHex secret rawBody)) rawBody
        (credBody q p) store = .ok (⟨200, .ok⟩, store) := by
  rw [webhookV2_credited, findOneAndUpdate_nomatch q (some p) store h]

theorem C9_witness :
    webhookV2 (fun _ _ => "d") "sec" (some "d") "raw"
        (credBody "qr_A1" "pay_X9")
        [Session.mk "qr_B" (some 1) "PENDING" none 0]
      = .ok (⟨200, .ok⟩, [Session.mk "qr_B" (some 1) "PENDING" none 0]) :=
  C9_orphan_acknowledged (fun _ _ => "d") "sec" "raw" "qr_A1" "pay_X9"
    [Session.mk "qr_B" (some 1) "PENDING" none 0] (by decide)

/-- Claim C10: check-status for an artifact id with no matching session
answers 404 `{status:"NOT_FOUND"}` — a total function, never a thrown
error — and, being a pure read, the store after the request is the store
before it. -/
theorem C10_not_found (id : String) (store : Store)
    (h : ∀ s ∈ store, s.qrId ≠ id) :
    checkStatus id store = ⟨404, .notFound⟩
    ∧ stepStore store (Op.check id) = store := by
  refine ⟨?_, rfl⟩
  unfold checkStatus
  rw [find?_qrId_eq_none id store h]

theorem C10_witness :
    checkStatus "qr_A1" [Session.mk "qr_B" (some 1) "PENDING" none 0]
      = ⟨404, .notFound⟩
    ∧ stepStore [Session.mk "qr_B" (some 1) "PENDING" none 0]
        (Op.check "qr_A1")
      = [Session.mk "qr_B" (some 1) "PENDING" none 0] :=
  C10_not_found "qr_A1" [Session.mk "qr_B" (some 1) "PENDING" none 0]
    (by decide)
